import Mathlib

/-!
Shallow embedding of the scraping heuristics and two-tier fallback logic of
the Python_Scrap repository (smart_scraper.py, quick_scraper.py,
fast_free_scraper.py), with theorems settling the frozen claims about them.

External libraries (the `re` regex module, BeautifulSoup parsing, the
`requests` HTTP client, the Selenium browser driver) are modelled as
abstract oracles supplied through environment structures; the repository's
own logic — the scoring arithmetic, the thresholds, the fallback control
flow, the dedup-and-truncate pipelines — is translated faithfully from the
Python source.
-/

/-- Does the character list `hay` start with `needle`? (Python `str.startswith`
at one position, used to build substring containment.) -/
def charsStartWith : List Char → List Char → Bool
  | [], _ => true
  | _ :: _, [] => false
  | a :: as, b :: bs => a == b && charsStartWith as bs

/-- Does `needle` occur as a contiguous sublist of `hay`? -/
def charsContain (needle : List Char) : List Char → Bool
  | [] => charsStartWith needle []
  | c :: cs => charsStartWith needle (c :: cs) || charsContain needle cs

/-- Python's `needle in hay` substring test on strings. -/
def strContains (needle hay : String) : Bool :=
  charsContain needle.toList hay.toList

/-- Python's `str.lower` (all the repository's pattern and keyword strings
are ASCII, where this agrees with Unicode lowercasing).  Structurally
recursive so that concrete runs reduce. -/
def pyLower (s : String) : String :=
  String.mk (s.toList.map Char.toLower)

/-- A whitespace character, as Python's `str.strip` removes by default. -/
def isPySpace (c : Char) : Bool :=
  c == ' ' || c == '\t' || c == '\n' || c == '\r' || c == '\x0b' || c == '\x0c'

/-- Python's `str.strip()`: drop leading and trailing whitespace. -/
def pyStrip (s : String) : String :=
  String.mk (((s.toList.dropWhile isPySpace).reverse.dropWhile isPySpace).reverse)

/-- Abstract interface to Python's `re` module.  The repository only ever
uses `re.findall` (lists of matched strings) and `re.search` (a Boolean
"found" check), in three flag configurations; each is an oracle field. -/
structure ReModule where
  /-- `re.findall(pattern, s)` with no flags: the list of matched strings. -/
  findall : String → String → List String
  /-- `re.findall(pattern, s, re.IGNORECASE)`. -/
  findallIC : String → String → List String
  /-- `re.search(pattern, s) is not None` with no flags. -/
  searchBool : String → String → Bool
  /-- `re.search(pattern, s, re.IGNORECASE | re.DOTALL) is not None`. -/
  searchDotIC : String → String → Bool

/-! ## smart_scraper.py: detect_financial_data -/

/-- The view of a BeautifulSoup document that `detect_financial_data`
(smart_scraper.py) consumes: the page text and the element counts that
`soup.find_all` delivers. -/
structure Soup where
  /-- `soup.get_text()`. -/
  text : String
  /-- `len(soup.find_all('table'))`. -/
  numTables : Nat
  /-- Number of `tr`/`td` elements whose class matches
  `financial|dividend|price|data|value`
  (`soup.find_all(['tr','td'], class_=re.compile(...))`). -/
  numFinancialRows : Nat

/-- The `indicators` dict built by `detect_financial_data`. -/
structure Indicators where
  dividend_data : Nat
  financial_tables : Nat
  price_data : Nat
  total_elements : Nat
  deriving DecidableEq, Repr

/-- The `dividend_patterns` list of smart_scraper.py (regex source strings). -/
def dividend_patterns : List String :=
  ["\\$?\\d+\\.\\d\x7b2,3\x7d", "dividend", "yield", "payout",
   "ex-date", "quarterly", "annual"]

/-- The `price_patterns` list of smart_scraper.py. -/
def price_patterns : List String :=
  ["\\$\\d+\\.\\d\x7b2\x7d", "\\d+\\.\\d\x7b2\x7d%",
   "\\d\x7b1,3\x7d(,\\d\x7b3\x7d)*\\.\\d\x7b2\x7d"]

/-- `detect_financial_data(soup)` of smart_scraper.py.  Accumulates the
dividend indicator over `dividend_patterns` (matches of a pattern that
itself contains the substring `'dividend'` weigh 3), counts tables,
financial rows and price-pattern matches, and compares the weighted total
against the threshold 20.  Returns `(has_data, indicators, total_score)`. -/
def detect_financial_data (R : ReModule) (soup : Soup) : Bool × Indicators × Nat :=
  let text_content := pyLower soup.text
  let dividend_data := dividend_patterns.foldl (fun acc pattern =>
    let m := (R.findall pattern text_content).length
    if strContains "dividend" pattern then acc + m * 3 else acc + m) 0
  let financial_tables := soup.numTables
  let total_elements := soup.numFinancialRows
  let price_data := price_patterns.foldl (fun acc pattern =>
    acc + (R.findall pattern text_content).length) 0
  let total_score := dividend_data * 2 + financial_tables * 5 +
    price_data * 3 + total_elements
  (decide (total_score > 20),
   ⟨dividend_data, financial_tables, price_data, total_elements⟩,
   total_score)

/-! ## quick_scraper.py: has_meaningful_content -/

/-- The view of a BeautifulSoup document that `has_meaningful_content`
(quick_scraper.py) consumes: the stripped texts (`get_text(strip=True)`)
of the document's `td`/`th` cells, in document order. -/
structure QSoup where
  cells : List String

/-- `dividend_value_pattern` of quick_scraper.py:
values like `0.51`, `1.23`. -/
def dividend_value_pattern : String :=
  "\\b0\\.[5-9]\\d\\b|\\b[1-9]\\.\\d\x7b2\x7d\\b"

/-- `specific_dividend_patterns` of quick_scraper.py, searched in the raw
HTML with `re.IGNORECASE | re.DOTALL`. -/
def specific_dividend_patterns : List String :=
  ["Dividend Per Share", "0\\.51.*0\\.56.*0\\.62",
   "<td.*?>0\\.\\d\x7b2\x7d</td>"]

/-- `has_meaningful_content(html_content)` of quick_scraper.py.
`none` models Python `None`; `if not html_content` is also true for the
empty string.  `parse` models `BeautifulSoup(html_content, 'html.parser')`.
Counts `td`/`th` cells whose stripped text matches
`dividend_value_pattern`, counts which of the three specific patterns
occur in the raw HTML, and compares `3*cells + 5*patterns` against the
threshold 10. -/
def has_meaningful_content (R : ReModule) (parse : String → QSoup) :
    Option String → Bool
  | none => false
  | some html_content =>
    if html_content.isEmpty then false
    else
      let soup := parse html_content
      let dividend_values_found :=
        soup.cells.countP (fun cell_text => R.searchBool dividend_value_pattern cell_text)
      let pattern_matches :=
        specific_dividend_patterns.countP (fun pattern => R.searchDotIC pattern html_content)
      let score := dividend_values_found * 3 + pattern_matches * 5
      decide (score > 10)

/-! ## get_html_fast (smart_scraper.py and quick_scraper.py)

Both files issue the same request (`requests.get(url, headers=headers,
timeout=30)` followed by `raise_for_status()`) with identical header
dicts.  The HTTP behaviour is an environment value: `.ok t` stands for a
successful request whose `response.text` is `t`, `.error msg` for any
exception raised by the request or the status check. -/

/-- One run's HTTP environment: the outcome of the underlying request and
the elapsed wall time (timing is not modelled further). -/
structure HttpEnv where
  resp : Except String String
  elapsed : Nat

/-- The request headers of smart_scraper.py's `get_html_fast`. -/
def SmartScraper.headers : List (String × String) :=
  [("User-Agent", "Mozilla/5.0 (Windows NT 10.0; Win64; x64) AppleWebKit/537.36 (KHTML, like Gecko) Chrome/120.0.0.0 Safari/537.36"),
   ("Accept", "text/html,application/xhtml+xml,application/xml;q=0.9,image/webp,*/*;q=0.8"),
   ("Accept-Language", "en-US,en;q=0.5"),
   ("Accept-Encoding", "gzip, deflate"),
   ("Connection", "keep-alive"),
   ("Upgrade-Insecure-Requests", "1")]

/-- The request headers of quick_scraper.py's `get_html_fast`. -/
def QuickScraper.headers : List (String × String) :=
  [("User-Agent", "Mozilla/5.0 (Windows NT 10.0; Win64; x64) AppleWebKit/537.36 (KHTML, like Gecko) Chrome/120.0.0.0 Safari/537.36"),
   ("Accept", "text/html,application/xhtml+xml,application/xml;q=0.9,image/webp,*/*;q=0.8"),
   ("Accept-Language", "en-US,en;q=0.5"),
   ("Accept-Encoding", "gzip, deflate"),
   ("Connection", "keep-alive"),
   ("Upgrade-Insecure-Requests", "1")]

/-- The request timeout of smart_scraper.py's `get_html_fast`. -/
def SmartScraper.timeoutSeconds : Nat := 30

/-- The request timeout of quick_scraper.py's `get_html_fast`. -/
def QuickScraper.timeoutSeconds : Nat := 30

/-- `get_html_fast(url)` of smart_scraper.py: on success returns
`(response.text, True, duration)`; on any exception returns
`(None, False, duration)`. -/
def SmartScraper.get_html_fast (e : HttpEnv) : Option String × Bool × Nat :=
  match e.resp with
  | .ok t => (some t, true, e.elapsed)
  | .error _ => (none, false, e.elapsed)

/-- `get_html_fast(url)` of quick_scraper.py: on success returns
`(response.text, True)`; on any exception returns `(None, False)`. -/
def QuickScraper.get_html_fast (e : HttpEnv) : Option String × Bool :=
  match e.resp with
  | .ok t => (some t, true)
  | .error _ => (none, false)

/-! ## The two-tier fallback: smart_scrape and quick_scrape

Each run is instrumented with the list of scraping strategies it invokes,
in order, so that claims about attempt counts and ordering are statable. -/

/-- A scraping strategy invocation. -/
inductive Method where
  | fastM : Method
  | selM : Method
  deriving DecidableEq, Repr

/-- Environment of one `smart_scrape` run: the HTTP outcome and elapsed
time of the fast tier, the BeautifulSoup parse oracle, the regex oracle,
and the Selenium tier's outcome (`some h`: `result.success` with rendered
HTML `h`; `none`: `result.success` false or an exception). -/
structure SmartEnv where
  http : HttpEnv
  parse : String → Soup
  R : ReModule
  seleniumResult : Option String

/-- `smart_scrape(url, ...)` of smart_scraper.py, instrumented with the
list of strategies invoked.  Faithful control flow: the fast tier's HTML
is accepted only when the request succeeded, the content is truthy
(non-empty — Python's `if html_content and success`), and
`detect_financial_data` reports `has_data`; otherwise the Selenium tier
runs, returning its HTML with tag `'selenium'` on success and
`(None, 'failed')` otherwise.  File output and timing prints are omitted;
the returned duration is not modelled. -/
def smart_scrape (e : SmartEnv) : Option String × String × List Method :=
  let fr := SmartScraper.get_html_fast e.http
  match fr.1, fr.2.1 with
  | some html_content, true =>
    if !html_content.isEmpty then
      let soup := e.parse html_content
      let d := detect_financial_data e.R soup
      if d.1 then
        (some html_content, "fast", [Method.fastM])
      else
        match e.seleniumResult with
        | some raw_html => (some raw_html, "selenium", [Method.fastM, Method.selM])
        | none => (none, "failed", [Method.fastM, Method.selM])
    else
      match e.seleniumResult with
      | some raw_html => (some raw_html, "selenium", [Method.fastM, Method.selM])
      | none => (none, "failed", [Method.fastM, Method.selM])
  | _, _ =>
    match e.seleniumResult with
    | some raw_html => (some raw_html, "selenium", [Method.fastM, Method.selM])
    | none => (none, "failed", [Method.fastM, Method.selM])

/-- Environment of one `quick_scrape` run: the fast tier's HTTP outcome,
the parse and regex oracles for `has_meaningful_content`, and the outcome
of `get_html_selenium` (`some h`: returned `(h, True)`; `none`: returned
`(None, False)`). -/
structure QuickEnv where
  http : HttpEnv
  parse : String → QSoup
  R : ReModule
  seleniumResult : Option String

/-- `quick_scrape(url)` of quick_scraper.py, instrumented with the list of
strategies invoked.  The fast tier's HTML is accepted only when the
request succeeded, the content is truthy (`if html_content and success`)
and `has_meaningful_content` holds; otherwise `get_html_selenium` runs,
and its HTML is accepted when it is truthy and the call succeeded
(`if html_content and success`), else the run fails. -/
def quick_scrape (e : QuickEnv) : Option String × String × List Method :=
  let fr := QuickScraper.get_html_fast e.http
  let seleniumStep : Option String × String × List Method :=
    match e.seleniumResult with
    | some h =>
      if !h.isEmpty then (some h, "selenium", [Method.fastM, Method.selM])
      else (none, "failed", [Method.fastM, Method.selM])
    | none => (none, "failed", [Method.fastM, Method.selM])
  match fr.1, fr.2 with
  | some html_content, true =>
    if !html_content.isEmpty then
      if has_meaningful_content e.R e.parse (some html_content) then
        (some html_content, "fast", [Method.fastM])
      else seleniumStep
    else seleniumStep
  | _, _ => seleniumStep

/-! ## fast_free_scraper.py -/

/-- The `currency_patterns` list of `extract_financial_data_fast`. -/
def currency_patterns : List String :=
  ["\\$[0-9,]+\\.?[0-9]*", "[0-9,]+\\.?[0-9]*\\s*USD",
   "[0-9,]+\\.?[0-9]*\\s*\\$"]

/-- The `date_patterns` list of `extract_financial_data_fast`. -/
def date_patterns : List String :=
  ["\\d\x7b1,2\x7d/\\d\x7b1,2\x7d/\\d\x7b4\x7d",
   "\\d\x7b4\x7d-\\d\x7b2\x7d-\\d\x7b2\x7d",
   "(Jan|Feb|Mar|Apr|May|Jun|Jul|Aug|Sep|Oct|Nov|Dec)[a-z]* \\d\x7b1,2\x7d,? \\d\x7b4\x7d",
   "\\d\x7b1,2\x7d (January|February|March|April|May|June|July|August|September|October|November|December) \\d\x7b4\x7d"]

/-- The `percentage_patterns` list of `extract_financial_data_fast`. -/
def percentage_patterns : List String :=
  ["[0-9,]+\\.?[0-9]*\\s*%", "[0-9,]+\\.?[0-9]*\\s*percent"]

/-- The `financial_keywords` list of `extract_financial_data_fast`. -/
def financial_keywords : List String :=
  ["dividend", "yield", "earnings", "revenue", "profit",
   "ex-dividend", "payment date", "record date",
   "quarterly", "annual", "financial", "income",
   "market cap", "price", "volume", "change"]

/-- The per-category match accumulation of `extract_financial_data_fast`:
`for pattern in patterns: extracted.extend(re.findall(pattern, text, re.IGNORECASE))`. -/
def accumulateMatches (R : ReModule) (patterns : List String) (text : String) :
    List String :=
  patterns.foldl (fun acc pattern => acc ++ R.findallIC pattern text) []

/-- Python `list(set(xs))[:n]`: deduplicate (iteration order of a Python
set is unspecified; modelled as Mathlib's `List.dedup`, which keeps one
copy of each element) then keep at most `n` entries. -/
def setThenTruncate (xs : List String) (n : Nat) : List String :=
  xs.dedup.take n

/-- The `extracted_data` dict of `extract_financial_data_fast`. -/
structure Extracted where
  currency_amounts : List String
  dates : List String
  percentages : List String
  financial_keywords : List String
  deriving DecidableEq, Repr

/-- `extract_financial_data_fast(soup, html_content)` of
fast_free_scraper.py.  Works on `soup.get_text()` (the `html_content`
argument is unused by the extraction); accumulates `re.findall` matches
per pattern category, collects keywords occurring in the lowercased text,
then deduplicates each list and truncates currency amounts and dates to
50 entries and percentages to 30 (`list(set(...))[:50]` etc.);
keyword list is deduplicated without truncation.  The `financial_metrics`
field stays empty in the source and is omitted. -/
def extract_financial_data_fast (R : ReModule) (soupText : String)
    (_html_content : String) : Extracted :=
  let text_content := soupText
  let currency := accumulateMatches R currency_patterns text_content
  let dates := accumulateMatches R date_patterns text_content
  let percentages := accumulateMatches R percentage_patterns text_content
  let text_lower := pyLower text_content
  let keywords := financial_keywords.filter (fun keyword => strContains keyword text_lower)
  { currency_amounts := setThenTruncate currency 50
    dates := setThenTruncate dates 50
    percentages := setThenTruncate percentages 30
    financial_keywords := keywords.dedup }

/-- The headers/rows view of a table that `is_financial_table_fast`
consumes (the `table_info` dict's `'headers'` and `'rows'` entries). -/
structure TableInfo where
  headers : List String
  rows : List (List String)
  deriving DecidableEq, Repr

/-- The `financial_header_keywords` list of `is_financial_table_fast`. -/
def financial_header_keywords : List String :=
  ["dividend", "yield", "price", "date", "amount", "payment",
   "ex-date", "record", "earnings", "revenue", "profit"]

/-- `is_financial_table_fast(table_info)` of fast_free_scraper.py:
`header_score` counts the financial keywords occurring in the lowercased
space-joined headers, `row_score` counts among the first five rows those
whose lowercased space-joined text contains `'$'` or `'%'`; the table is
financial when `header_score >= 1 or row_score >= 2`. -/
def is_financial_table_fast (table_info : TableInfo) : Bool :=
  let headers_text := pyLower (String.intercalate " " table_info.headers)
  let header_score := financial_header_keywords.countP
    (fun keyword => strContains keyword headers_text)
  let row_score := (table_info.rows.take 5).countP (fun row =>
    let row_text := pyLower (String.intercalate " " row)
    row_text.toList.contains '$' || row_text.toList.contains '%')
  header_score ≥ 1 || row_score ≥ 2

/-- Raw per-table element texts as BeautifulSoup delivers them to
`extract_tables_fast`: the `get_text()` of each `th`/`thead` element and,
per `tr` row, the `get_text()` of each `td`/`th` cell. -/
structure TableRaw where
  headerTexts : List String
  rowCellTexts : List (List String)

/-- One entry of the `tables_data` output of `extract_tables_fast`
(index and row/column counts of the metadata are not needed by the
claims and are omitted; `appears_financial` is kept). -/
structure TableOut where
  headers : List String
  rows : List (List String)
  appears_financial : Bool
  deriving DecidableEq, Repr

/-- `extract_tables_fast(soup)` of fast_free_scraper.py: per table, strip
the header texts keeping the non-empty ones, keep the first 50 rows that
have cells and a non-empty stripped cell, compute `appears_financial`
via `is_financial_table_fast`, and keep the table when it has headers or
rows. -/
def extract_tables_fast (tables : List TableRaw) : List TableOut :=
  (tables.map (fun table =>
    let headers := (table.headerTexts.map pyStrip).filter (fun h => !h.isEmpty)
    let rows := (table.rowCellTexts.take 50).filterMap (fun cells =>
      if cells.isEmpty then none
      else
        let row_data := cells.map pyStrip
        if row_data.any (fun cell => !cell.isEmpty) then some row_data else none)
    { headers := headers, rows := rows
      appears_financial := is_financial_table_fast ⟨headers, rows⟩ })).filter
    (fun t => !t.headers.isEmpty || !t.rows.isEmpty)

/-- The BeautifulSoup view of a page that `scrape_with_requests`
consumes. -/
structure FFSoup where
  text : String
  tables : List TableRaw

/-- Environment of one `scrape_with_requests` run: the HTTP outcome, the
parse oracle and the regex oracle. -/
structure FFEnv where
  resp : Except String String
  parse : String → FFSoup
  R : ReModule

/-- `scrape_with_requests(url, output_format)` of fast_free_scraper.py,
instrumented with the list of strategies invoked.  On request success it
parses, runs `extract_financial_data_fast` and `extract_tables_fast`, and
saves results (file output is omitted); on any exception it returns no
data.  The function body contains no call to Selenium or any browser
automation — the only strategy ever invoked is the HTTP request. -/
def scrape_with_requests (e : FFEnv) :
    Option (Extracted × List TableOut) × List Method :=
  match e.resp with
  | .ok text =>
    let soup := e.parse text
    let extracted_data := extract_financial_data_fast e.R soup.text text
    let tables := extract_tables_fast soup.tables
    (some (extracted_data, tables), [Method.fastM])
  | .error _ => (none, [Method.fastM])

/-! ## Theorems -/

/-- C2: for every parsed HTML document, `detect_financial_data` returns
`has_data = true` exactly when its total score is strictly greater
than 20, where the total score equals
`2 * dividendCount + 5 * numTables + 3 * priceCount + 1 * numFinancialRows`,
with `dividendCount` the number of regex matches of the seven dividend
patterns in the lowercased page text (matches of a pattern containing the
substring `'dividend'` counted three times each) and `priceCount` the
number of matches of the three price patterns; it also returns that score
and the four indicator counts. -/
theorem c2_detect_financial_data_spec (R : ReModule) (s : Soup) :
    ((detect_financial_data R s).1 = true ↔
      2 * ((dividend_patterns.map (fun p =>
              if strContains "dividend" p then 3 * (R.findall p (pyLower s.text)).length
              else (R.findall p (pyLower s.text)).length)).sum) +
        5 * s.numTables +
        3 * ((price_patterns.map (fun p => (R.findall p (pyLower s.text)).length)).sum) +
        1 * s.numFinancialRows > 20) ∧
    (detect_financial_data R s).2.2 =
      2 * ((dividend_patterns.map (fun p =>
              if strContains "dividend" p then 3 * (R.findall p (pyLower s.text)).length
              else (R.findall p (pyLower s.text)).length)).sum) +
        5 * s.numTables +
        3 * ((price_patterns.map (fun p => (R.findall p (pyLower s.text)).length)).sum) +
        1 * s.numFinancialRows ∧
    (detect_financial_data R s).2.1 =
      ⟨(dividend_patterns.map (fun p =>
          if strContains "dividend" p then 3 * (R.findall p (pyLower s.text)).length
          else (R.findall p (pyLower s.text)).length)).sum,
        s.numTables,
        (price_patterns.map (fun p => (R.findall p (pyLower s.text)).length)).sum,
        s.numFinancialRows⟩ := by
  have e1 : strContains "dividend" "\\$?\\d+\\.\\d\x7b2,3\x7d" = false := by decide
  have e2 : strContains "dividend" "dividend" = true := by decide
  have e3 : strContains "dividend" "yield" = false := by decide
  have e4 : strContains "dividend" "payout" = false := by decide
  have e5 : strContains "dividend" "ex-date" = false := by decide
  have e6 : strContains "dividend" "quarterly" = false := by decide
  have e7 : strContains "dividend" "annual" = false := by decide
  simp only [detect_financial_data, dividend_patterns, price_patterns,
    List.foldl_cons, List.foldl_nil, List.map_cons, List.map_nil,
    List.sum_cons, List.sum_nil, e1, e2, e3, e4, e5, e6, e7,
    if_true, if_false, Bool.false_eq_true, decide_eq_true_eq]
  refine ⟨Iff.rfl.trans (by constructor <;> (intro h; omega)), by omega, ?_⟩
  congr 1 <;> omega

/-- C5: `is_financial_table_fast` returns true exactly when at least one
of the eleven financial header keywords occurs as a substring of the
lowercased space-joined headers, or at least two of the first five rows
contain a `'$'` or `'%'` character in their lowercased space-joined
text. -/
theorem c5_is_financial_table_fast_spec (t : TableInfo) :
    is_financial_table_fast t = true ↔
      (∃ keyword ∈ financial_header_keywords,
        strContains keyword (pyLower (String.intercalate " " t.headers)) = true) ∨
      2 ≤ (t.rows.take 5).countP (fun row =>
        ((pyLower (String.intercalate " " row)).toList.contains '$' ||
         (pyLower (String.intercalate " " row)).toList.contains '%')) := by
  simp only [is_financial_table_fast, Bool.or_eq_true, decide_eq_true_eq, ge_iff_le,
    List.one_le_countP_iff]

/-- C8: the duplicated fast-HTML-retrieval logic is equivalent across the
two files: both `get_html_fast` versions issue the same request (equal
header dicts, equal timeout), and for the same underlying HTTP outcome
they return the same HTML content and the same success flag (the
smart_scraper.py version additionally returning the elapsed duration). -/
theorem c8_get_html_fast_equiv (e : HttpEnv) :
    SmartScraper.headers = QuickScraper.headers ∧
    SmartScraper.timeoutSeconds = QuickScraper.timeoutSeconds ∧
    (SmartScraper.get_html_fast e).1 = (QuickScraper.get_html_fast e).1 ∧
    (SmartScraper.get_html_fast e).2.1 = (QuickScraper.get_html_fast e).2 := by
  refine ⟨rfl, rfl, ?_, ?_⟩ <;>
    cases h : e.resp <;>
      simp [SmartScraper.get_html_fast, QuickScraper.get_html_fast, h]

/-- C9: the content-quality heuristic is monotone in its indicators: when
each of the four indicator counts of one run of `detect_financial_data`
is at most the corresponding count of another, `has_data = true` for the
first implies `has_data = true` for the second. -/
theorem c9_detect_financial_data_monotone (R₁ R₂ : ReModule) (s₁ s₂ : Soup)
    (h₁ : (detect_financial_data R₁ s₁).2.1.dividend_data ≤
          (detect_financial_data R₂ s₂).2.1.dividend_data)
    (h₂ : (detect_financial_data R₁ s₁).2.1.financial_tables ≤
          (detect_financial_data R₂ s₂).2.1.financial_tables)
    (h₃ : (detect_financial_data R₁ s₁).2.1.price_data ≤
          (detect_financial_data R₂ s₂).2.1.price_data)
    (h₄ : (detect_financial_data R₁ s₁).2.1.total_elements ≤
          (detect_financial_data R₂ s₂).2.1.total_elements)
    (h : (detect_financial_data R₁ s₁).1 = true) :
    (detect_financial_data R₂ s₂).1 = true := by
  simp only [detect_financial_data, decide_eq_true_eq] at h₁ h₂ h₃ h₄ h ⊢
  omega

/-- Witness for C9 at concrete inputs: a soup with five tables (score 25)
versus one with six (score 30). -/
theorem c9_detect_financial_data_monotone_witness :
    (detect_financial_data
      ⟨fun _ _ => [], fun _ _ => [], fun _ _ => false, fun _ _ => false⟩
      ⟨"", 6, 0⟩).1 = true :=
  c9_detect_financial_data_monotone
    ⟨fun _ _ => [], fun _ _ => [], fun _ _ => false, fun _ _ => false⟩
    ⟨fun _ _ => [], fun _ _ => [], fun _ _ => false, fun _ _ => false⟩
    ⟨"", 5, 0⟩ ⟨"", 6, 0⟩
    (by decide) (by decide) (by decide) (by decide) (by decide)

/-- C10: `get_html_fast` is total at its public interface: whenever the
underlying HTTP request or status check raises (the `except Exception`
arm), both versions return `(None, False)` — smart_scraper.py's
additionally the elapsed duration — and, the embedding being a total
function, no exception propagates to the caller. -/
theorem c10_get_html_fast_total (e : HttpEnv) (msg : String)
    (h : e.resp = .error msg) :
    SmartScraper.get_html_fast e = (none, false, e.elapsed) ∧
    QuickScraper.get_html_fast e = (none, false) := by
  simp [SmartScraper.get_html_fast, QuickScraper.get_html_fast, h]

/-- Witness for C10 at a concrete input: a timed-out request. -/
theorem c10_get_html_fast_total_witness :
    SmartScraper.get_html_fast ⟨Except.error "timeout", 7⟩ = (none, false, 7) ∧
    QuickScraper.get_html_fast ⟨Except.error "timeout", 7⟩ = (none, false) :=
  c10_get_html_fast_total ⟨Except.error "timeout", 7⟩ "timeout" rfl

/-- C3: `has_meaningful_content` returns false when the HTML content is
`None` or empty, and otherwise returns true exactly when
`3 * (td/th cells whose stripped text matches the dividend-value regex)
 + 5 * (specific dividend patterns occurring in the raw HTML under
 case-insensitive, dot-matches-newline matching)` is strictly greater
than 10. -/
theorem c3_has_meaningful_content_spec (R : ReModule) (parse : String → QSoup) :
    has_meaningful_content R parse none = false ∧
    has_meaningful_content R parse (some "") = false ∧
    ∀ html, html.isEmpty = false →
      (has_meaningful_content R parse (some html) = true ↔
        3 * ((parse html).cells.countP
              (fun cell => R.searchBool dividend_value_pattern cell)) +
        5 * (specific_dividend_patterns.countP
              (fun pattern => R.searchDotIC pattern html)) > 10) := by
  refine ⟨rfl, rfl, fun html hne => ?_⟩
  simp only [has_meaningful_content, hne, Bool.false_eq_true, if_false,
    decide_eq_true_eq]
  omega

/-- Witness for C3 at a concrete input: a single-cell document whose cell
matches the dividend-value regex and whose raw HTML contains all three
specific patterns, scoring `3*1 + 5*3 = 18 > 10`. -/
theorem c3_has_meaningful_content_spec_witness :
    has_meaningful_content
      ⟨fun _ _ => [], fun _ _ => [], fun _ _ => true, fun _ _ => true⟩
      (fun _ => ⟨["0.51"]⟩) (some "x") = true ↔
      3 * ((⟨["0.51"]⟩ : QSoup).cells.countP (fun _ => true)) +
      5 * (specific_dividend_patterns.countP (fun _ => true)) > 10 :=
  (c3_has_meaningful_content_spec
    ⟨fun _ _ => [], fun _ _ => [], fun _ _ => true, fun _ _ => true⟩
    (fun _ => ⟨["0.51"]⟩)).2.2 "x" (by decide)

/-- The fast tier of a `smart_scrape` run is acceptable (per the claims'
wording): the HTTP request succeeded and `detect_financial_data` scored
the retrieved content sufficient. -/
def smartFastOk (e : SmartEnv) : Prop :=
  ∃ t, e.http.resp = .ok t ∧ (detect_financial_data e.R (e.parse t)).1 = true

/-- The fast tier of a `quick_scrape` run is acceptable: the HTTP request
succeeded and `has_meaningful_content` holds for the retrieved content. -/
def quickFastOk (e : QuickEnv) : Prop :=
  ∃ t, e.http.resp = .ok t ∧ has_meaningful_content e.R e.parse (some t) = true

/-- Exhaustive case analysis of a `smart_scrape` run.  The hypothesis
records that parsing the empty string yields no financial data (true of
`BeautifulSoup("")`, whose text is empty and which has no elements). -/
theorem smart_scrape_cases (e : SmartEnv)
    (h0 : (detect_financial_data e.R (e.parse "")).1 = false) :
    (∃ t, e.http.resp = .ok t ∧ (detect_financial_data e.R (e.parse t)).1 = true ∧
      smart_scrape e = (some t, "fast", [Method.fastM])) ∨
    (¬ smartFastOk e ∧
      ((∃ h, e.seleniumResult = some h ∧
          smart_scrape e = (some h, "selenium", [Method.fastM, Method.selM])) ∨
        (e.seleniumResult = none ∧
          smart_scrape e = (none, "failed", [Method.fastM, Method.selM])))) := by
  cases hresp : e.http.resp with
  | error msg =>
    refine .inr ⟨?_, ?_⟩
    · rintro ⟨t, ht, -⟩
      rw [hresp] at ht
      cases ht
    · cases hsel : e.seleniumResult with
      | some h =>
        exact .inl ⟨h, rfl, by simp [smart_scrape, SmartScraper.get_html_fast, hresp, hsel]⟩
      | none =>
        exact .inr ⟨rfl, by simp [smart_scrape, SmartScraper.get_html_fast, hresp, hsel]⟩
  | ok t =>
    by_cases hemp : t.isEmpty
    · have ht0 : t = "" := (String.isEmpty_iff t).mp hemp
      subst ht0
      refine .inr ⟨?_, ?_⟩
      · rintro ⟨t', ht', hd'⟩
        rw [hresp] at ht'
        cases ht'
        rw [h0] at hd'
        cases hd'
      · cases hsel : e.seleniumResult with
        | some h =>
          exact .inl ⟨h, rfl,
            by simp [smart_scrape, SmartScraper.get_html_fast, hresp, hsel,
              show ("" : String).isEmpty = true from rfl]⟩
        | none =>
          exact .inr ⟨rfl,
            by simp [smart_scrape, SmartScraper.get_html_fast, hresp, hsel,
              show ("" : String).isEmpty = true from rfl]⟩
    · by_cases hdet : (detect_financial_data e.R (e.parse t)).1 = true
      · exact .inl ⟨t, rfl, hdet,
          by simp [smart_scrape, SmartScraper.get_html_fast, hresp, hemp, hdet]⟩
      · refine .inr ⟨?_, ?_⟩
        · rintro ⟨t', ht', hd'⟩
          rw [hresp] at ht'
          cases ht'
          exact hdet hd'
        · cases hsel : e.seleniumResult with
          | some h =>
            exact .inl ⟨h, rfl,
              by simp [smart_scrape, SmartScraper.get_html_fast, hresp, hemp, hdet, hsel]⟩
          | none =>
            exact .inr ⟨rfl,
              by simp [smart_scrape, SmartScraper.get_html_fast, hresp, hemp, hdet, hsel]⟩

/-- Exhaustive case analysis of a `quick_scrape` run.  No side condition
is needed: `has_meaningful_content` itself rejects empty content, and the
Selenium tier's truthiness check is recorded in the disjuncts. -/
theorem quick_scrape_cases (q : QuickEnv) :
    (∃ t, q.http.resp = .ok t ∧ has_meaningful_content q.R q.parse (some t) = true ∧
      quick_scrape q = (some t, "fast", [Method.fastM])) ∨
    (¬ quickFastOk q ∧
      ((∃ h, q.seleniumResult = some h ∧ h.isEmpty = false ∧
          quick_scrape q = (some h, "selenium", [Method.fastM, Method.selM])) ∨
        ((q.seleniumResult = none ∨ q.seleniumResult = some "") ∧
          quick_scrape q = (none, "failed", [Method.fastM, Method.selM])))) := by
  have selFallback : ∀ hno : ¬ quickFastOk q,
      (∀ r, (match q.seleniumResult with
          | some h =>
            if !h.isEmpty then ((some h : Option String), "selenium", [Method.fastM, Method.selM])
            else (none, "failed", [Method.fastM, Method.selM])
          | none => (none, "failed", [Method.fastM, Method.selM])) = r →
        quick_scrape q = r) →
      (¬ quickFastOk q ∧
        ((∃ h, q.seleniumResult = some h ∧ h.isEmpty = false ∧
            quick_scrape q = (some h, "selenium", [Method.fastM, Method.selM])) ∨
          ((q.seleniumResult = none ∨ q.seleniumResult = some "") ∧
            quick_scrape q = (none, "failed", [Method.fastM, Method.selM])))) := by
    intro hno hrun
    refine ⟨hno, ?_⟩
    cases hsel : q.seleniumResult with
    | some h =>
      by_cases hhe : h.isEmpty
      · have hh0 : h = "" := (String.isEmpty_iff h).mp hhe
        subst hh0
        exact .inr ⟨.inr rfl,
          hrun _ (by rw [hsel]; simp [show ("" : String).isEmpty = true from rfl])⟩
      · have hhe' : h.isEmpty = false := by simpa using hhe
        exact .inl ⟨h, rfl, hhe', hrun _ (by rw [hsel]; simp [hhe'])⟩
    | none => exact .inr ⟨.inl rfl, hrun _ (by rw [hsel])⟩
  cases hresp : q.http.resp with
  | error msg =>
    refine .inr (selFallback ?_ ?_)
    · rintro ⟨t, ht, -⟩
      rw [hresp] at ht
      cases ht
    · intro r hr
      rw [← hr]
      simp [quick_scrape, QuickScraper.get_html_fast, hresp]
  | ok t =>
    by_cases hemp : t.isEmpty
    · have ht0 : t = "" := (String.isEmpty_iff t).mp hemp
      subst ht0
      refine .inr (selFallback ?_ ?_)
      · rintro ⟨t', ht', hd'⟩
        rw [hresp] at ht'
        cases ht'
        simp [has_meaningful_content,
          show ("" : String).isEmpty = true from rfl] at hd'
      · intro r hr
        rw [← hr]
        simp [quick_scrape, QuickScraper.get_html_fast, hresp,
          show ("" : String).isEmpty = true from rfl]
    · by_cases hmc : has_meaningful_content q.R q.parse (some t) = true
      · exact .inl ⟨t, rfl, hmc,
          by simp [quick_scrape, QuickScraper.get_html_fast, hresp, hemp, hmc]⟩
      · refine .inr (selFallback ?_ ?_)
        · rintro ⟨t', ht', hd'⟩
          rw [hresp] at ht'
          cases ht'
          exact hmc hd'
        · intro r hr
          rw [← hr]
          simp [quick_scrape, QuickScraper.get_html_fast, hresp, hemp, hmc]

/-- C1: in every run of `smart_scrape` and of `quick_scrape` the two
strategies are tried in a fixed linear order with no retry or backoff:
the fast HTTP method is attempted exactly once, the Selenium method at
most once and only when the fast attempt failed or its content was
scored insufficient by the heuristic; when the fast attempt succeeds and
the heuristic judges the content sufficient, Selenium is never invoked.
The hypothesis records that the heuristic scores an empty document
insufficient (true of `BeautifulSoup("")`). -/
theorem c1_fallback_linear_order (e : SmartEnv) (q : QuickEnv)
    (h0 : (detect_financial_data e.R (e.parse "")).1 = false) :
    ((smart_scrape e).2.2 = [Method.fastM] ∨
      (smart_scrape e).2.2 = [Method.fastM, Method.selM]) ∧
    (smart_scrape e).2.2.count Method.fastM = 1 ∧
    (smart_scrape e).2.2.count Method.selM ≤ 1 ∧
    (Method.selM ∈ (smart_scrape e).2.2 ↔ ¬ smartFastOk e) ∧
    ((quick_scrape q).2.2 = [Method.fastM] ∨
      (quick_scrape q).2.2 = [Method.fastM, Method.selM]) ∧
    (quick_scrape q).2.2.count Method.fastM = 1 ∧
    (quick_scrape q).2.2.count Method.selM ≤ 1 ∧
    (Method.selM ∈ (quick_scrape q).2.2 ↔ ¬ quickFastOk q) := by
  have hsm : ((smart_scrape e).2.2 = [Method.fastM] ∨
      (smart_scrape e).2.2 = [Method.fastM, Method.selM]) ∧
      (smart_scrape e).2.2.count Method.fastM = 1 ∧
      (smart_scrape e).2.2.count Method.selM ≤ 1 ∧
      (Method.selM ∈ (smart_scrape e).2.2 ↔ ¬ smartFastOk e) := by
    rcases smart_scrape_cases e h0 with ⟨t, ht, hd, hs⟩ | ⟨hno, ⟨h, hsel, hs⟩ | ⟨hsel, hs⟩⟩ <;>
      rw [hs]
    · exact ⟨.inl rfl, by simp [List.count_cons, List.count_nil], by simp,
        iff_of_false (by simp) (not_not_intro ⟨t, ht, hd⟩)⟩
    · exact ⟨.inr rfl, by simp [List.count_cons, List.count_nil],
        by simp [List.count_cons, List.count_nil], iff_of_true (by simp) hno⟩
    · exact ⟨.inr rfl, by simp [List.count_cons, List.count_nil],
        by simp [List.count_cons, List.count_nil], iff_of_true (by simp) hno⟩
  have hqk : ((quick_scrape q).2.2 = [Method.fastM] ∨
      (quick_scrape q).2.2 = [Method.fastM, Method.selM]) ∧
      (quick_scrape q).2.2.count Method.fastM = 1 ∧
      (quick_scrape q).2.2.count Method.selM ≤ 1 ∧
      (Method.selM ∈ (quick_scrape q).2.2 ↔ ¬ quickFastOk q) := by
    rcases quick_scrape_cases q with
      ⟨t, ht, hd, hs⟩ | ⟨hno, ⟨h, hsel, hhe, hs⟩ | ⟨hsel, hs⟩⟩ <;> rw [hs]
    · exact ⟨.inl rfl, by simp [List.count_cons, List.count_nil], by simp,
        iff_of_false (by simp) (not_not_intro ⟨t, ht, hd⟩)⟩
    · exact ⟨.inr rfl, by simp [List.count_cons, List.count_nil],
        by simp [List.count_cons, List.count_nil], iff_of_true (by simp) hno⟩
    · exact ⟨.inr rfl, by simp [List.count_cons, List.count_nil],
        by simp [List.count_cons, List.count_nil], iff_of_true (by simp) hno⟩
  exact ⟨hsm.1, hsm.2.1, hsm.2.2.1, hsm.2.2.2,
    hqk.1, hqk.2.1, hqk.2.2.1, hqk.2.2.2⟩

/-- The trivial regex oracle: no pattern ever matches. -/
def trivialRe : ReModule :=
  ⟨fun _ _ => [], fun _ _ => [], fun _ _ => false, fun _ _ => false⟩

/-- A concrete parse oracle for smart_scraper runs: the empty document has
no elements, any other document shows five tables (score 25 > 20). -/
def smartParseA : String → Soup :=
  fun s => if s.isEmpty then ⟨"", 0, 0⟩ else ⟨"", 5, 0⟩

/-- A concrete `smart_scrape` environment whose fast tier succeeds with
sufficient data. -/
def smartEnvA : SmartEnv := ⟨⟨.ok "x", 3⟩, smartParseA, trivialRe, none⟩

/-- A concrete `quick_scrape` environment whose fast tier fails and whose
Selenium tier succeeds. -/
def quickEnvA : QuickEnv :=
  ⟨⟨.error "conn", 3⟩, fun _ => ⟨[]⟩, trivialRe, some "sel"⟩

/-- Witness for C1 at concrete runs: the Selenium-invocation equivalence,
instantiated at `smartEnvA` (fast tier acceptable) and `quickEnvA` (fast
tier fails). -/
theorem c1_fallback_linear_order_witness :
    (Method.selM ∈ (smart_scrape smartEnvA).2.2 ↔ ¬ smartFastOk smartEnvA) ∧
    (Method.selM ∈ (quick_scrape quickEnvA).2.2 ↔ ¬ quickFastOk quickEnvA) :=
  (fun h => ⟨h.2.2.2.1, h.2.2.2.2.2.2.2⟩)
    (c1_fallback_linear_order smartEnvA quickEnvA (by decide))

/-- C4: `smart_scrape` (and likewise `quick_scrape`) returns no content
(`None`, method tag `'failed'`) exactly when both tiers fail to produce
acceptable content; whenever a tier succeeds, the function returns that
tier's HTML with method tag `'fast'` or `'selenium'`.  The hypotheses
record that the heuristic scores an empty document insufficient and that
a successful browser render has non-empty page source. -/
theorem c4_failed_iff_both_tiers_fail (e : SmartEnv) (q : QuickEnv)
    (h0 : (detect_financial_data e.R (e.parse "")).1 = false)
    (hq : q.seleniumResult ≠ some "") :
    (((smart_scrape e).1 = none ∧ (smart_scrape e).2.1 = "failed") ↔
      (¬ smartFastOk e ∧ e.seleniumResult = none)) ∧
    (∀ t, e.http.resp = .ok t → (detect_financial_data e.R (e.parse t)).1 = true →
      smart_scrape e = (some t, "fast", [Method.fastM])) ∧
    (∀ h, ¬ smartFastOk e → e.seleniumResult = some h →
      (smart_scrape e).1 = some h ∧ (smart_scrape e).2.1 = "selenium") ∧
    (((quick_scrape q).1 = none ∧ (quick_scrape q).2.1 = "failed") ↔
      (¬ quickFastOk q ∧ q.seleniumResult = none)) ∧
    (∀ t, q.http.resp = .ok t → has_meaningful_content q.R q.parse (some t) = true →
      quick_scrape q = (some t, "fast", [Method.fastM])) ∧
    (∀ h, ¬ quickFastOk q → q.seleniumResult = some h →
      (quick_scrape q).1 = some h ∧ (quick_scrape q).2.1 = "selenium") := by
  have hsm := smart_scrape_cases e h0
  have hqk := quick_scrape_cases q
  refine ⟨?_, ?_, ?_, ?_, ?_, ?_⟩
  · rcases hsm with ⟨t, ht, hd, hs⟩ | ⟨hno, ⟨h, hsel, hs⟩ | ⟨hsel, hs⟩⟩ <;> rw [hs]
    · exact iff_of_false (by simp) (fun ⟨hn, _⟩ => hn ⟨t, ht, hd⟩)
    · exact iff_of_false (by simp)
        (fun ⟨_, hn⟩ => by rw [hsel] at hn; cases hn)
    · exact iff_of_true ⟨rfl, rfl⟩ ⟨hno, hsel⟩
  · intro t ht hd
    rcases hsm with ⟨t', ht', hd', hs⟩ | ⟨hno, -⟩
    · rw [ht] at ht'
      cases ht'
      exact hs
    · exact absurd ⟨t, ht, hd⟩ hno
  · intro h hno hsel
    rcases hsm with ⟨t', ht', hd', -⟩ | ⟨-, ⟨h', hsel', hs⟩ | ⟨hsel', hs⟩⟩
    · exact absurd ⟨t', ht', hd'⟩ hno
    · rw [hsel] at hsel'
      injection hsel' with hh
      subst hh
      exact ⟨by rw [hs], by rw [hs]⟩
    · rw [hsel] at hsel'
      cases hsel'
  · rcases hqk with ⟨t, ht, hd, hs⟩ | ⟨hno, ⟨h, hsel, hhe, hs⟩ | ⟨hsel, hs⟩⟩ <;> rw [hs]
    · exact iff_of_false (by simp) (fun ⟨hn, _⟩ => hn ⟨t, ht, hd⟩)
    · exact iff_of_false (by simp)
        (fun ⟨_, hn⟩ => by rw [hsel] at hn; cases hn)
    · rcases hsel with hsel | hsel
      · exact iff_of_true ⟨rfl, rfl⟩ ⟨hno, hsel⟩
      · exact absurd hsel hq
  · intro t ht hd
    rcases hqk with ⟨t', ht', hd', hs⟩ | ⟨hno, -⟩
    · rw [ht] at ht'
      cases ht'
      exact hs
    · exact absurd ⟨t, ht, hd⟩ hno
  · intro h hno hsel
    rcases hqk with ⟨t', ht', hd', -⟩ | ⟨-, ⟨h', hsel', hhe, hs⟩ | ⟨hsel', hs⟩⟩
    · exact absurd ⟨t', ht', hd'⟩ hno
    · rw [hsel] at hsel'
      injection hsel' with hh
      subst hh
      exact ⟨by rw [hs], by rw [hs]⟩
    · rcases hsel' with hsel' | hsel' <;> rw [hsel] at hsel'
      · cases hsel'
      · exact absurd hsel (by rw [hsel']; exact hq)

/-- Witness for C4 at concrete runs: the failed-iff-both-tiers-fail
equivalence, instantiated at `smartEnvA` and `quickEnvA`. -/
theorem c4_failed_iff_both_tiers_fail_witness :
    (((smart_scrape smartEnvA).1 = none ∧ (smart_scrape smartEnvA).2.1 = "failed") ↔
      (¬ smartFastOk smartEnvA ∧ smartEnvA.seleniumResult = none)) ∧
    (((quick_scrape quickEnvA).1 = none ∧ (quick_scrape quickEnvA).2.1 = "failed") ↔
      (¬ quickFastOk quickEnvA ∧ quickEnvA.seleniumResult = none)) :=
  (fun h => ⟨h.1, h.2.2.2.1⟩)
    (c4_failed_iff_both_tiers_fail smartEnvA quickEnvA (by decide) (by decide))


/-- Matches used to refute C6: 31 distinct percentage strings,
`"0%"` through `"30%"`. -/
def c6Matches : List String := (List.range 31).map (fun i => toString i ++ "%")

/-- A regex oracle under which the first percentage pattern yields 31
distinct matches and every other pattern yields none. -/
def c6Re : ReModule :=
  { findall := fun _ _ => []
    findallIC := fun pattern _ =>
      if pattern = "[0-9,]+\\.?[0-9]*\\s*%" then c6Matches else []
    searchBool := fun _ _ => false
    searchDotIC := fun _ _ => false }

/-- C6 counterexample: on a page whose text has 31 distinct percentage
matches, the match `"30%"` does not appear in the `'percentages'` output
list — `extract_financial_data_fast` truncates the deduplicated list to
30 entries (`list(set(...))[:30]`), so the claimed completeness fails. -/
theorem c6_counterexample :
    "30%" ∈ accumulateMatches c6Re percentage_patterns "text" ∧
    "30%" ∉ (extract_financial_data_fast c6Re "text" "text").percentages := by
  refine ⟨by decide, by decide⟩

/-- C6 amended: every currency amount, date and percentage match of the
listed regex patterns in the page text appears in the corresponding
output list ('currency_amounts', 'dates', 'percentages') provided the
number of distinct matches in that category does not exceed its cap —
50 for currency amounts, 50 for dates, 30 for percentages; beyond a cap
the `list(set(...))[:cap]` truncation may drop matches. -/
theorem c6_extraction_complete_up_to_caps (R : ReModule)
    (soupText html m : String) :
    ((accumulateMatches R currency_patterns soupText).dedup.length ≤ 50 →
      m ∈ accumulateMatches R currency_patterns soupText →
      m ∈ (extract_financial_data_fast R soupText html).currency_amounts) ∧
    ((accumulateMatches R date_patterns soupText).dedup.length ≤ 50 →
      m ∈ accumulateMatches R date_patterns soupText →
      m ∈ (extract_financial_data_fast R soupText html).dates) ∧
    ((accumulateMatches R percentage_patterns soupText).dedup.length ≤ 30 →
      m ∈ accumulateMatches R percentage_patterns soupText →
      m ∈ (extract_financial_data_fast R soupText html).percentages) := by
  have key : ∀ (xs : List String) (n : Nat), xs.dedup.length ≤ n →
      m ∈ xs → m ∈ setThenTruncate xs n := by
    intro xs n hlen hm
    unfold setThenTruncate
    rw [List.take_of_length_le hlen]
    exact List.mem_dedup.mpr hm
  refine ⟨?_, ?_, ?_⟩ <;>
    (intro h1 h2
     simp only [extract_financial_data_fast]
     exact key _ _ h1 h2)

/-- A regex oracle yielding the single match `"a"` for every pattern,
used to witness the amended C6. -/
def c6WitnessRe : ReModule :=
  ⟨fun _ _ => [], fun _ _ => ["a"], fun _ _ => false, fun _ _ => false⟩

/-- Witness for the amended C6 at a concrete input: with one distinct
match per category, the match appears in all three output lists. -/
theorem c6_extraction_complete_up_to_caps_witness :
    "a" ∈ (extract_financial_data_fast c6WitnessRe "t" "h").currency_amounts ∧
    "a" ∈ (extract_financial_data_fast c6WitnessRe "t" "h").dates ∧
    "a" ∈ (extract_financial_data_fast c6WitnessRe "t" "h").percentages :=
  (fun thm => ⟨thm.1 (by decide) (by decide),
    thm.2.1 (by decide) (by decide),
    thm.2.2 (by decide) (by decide)⟩)
    (c6_extraction_complete_up_to_caps c6WitnessRe "t" "h" "a")

/-- The soup used to refute C7: one table, no financial headers, no
`$`/`%` cells. -/
def c7Soup : FFSoup := ⟨"", [⟨["Color"], [["blue"]]⟩]⟩

/-- A `scrape_with_requests` environment whose page yields exactly one
extracted table, classified non-financial. -/
def c7Env : FFEnv := ⟨.ok "<html>", fun _ => c7Soup, trivialRe⟩

/-- The single table `scrape_with_requests` extracts in `c7Env`. -/
def c7Table : TableOut := ⟨["Color"], [["blue"]], false⟩

/-- C7 counterexample: a run of `scrape_with_requests` in which
`is_financial_table_fast` classifies no extracted table as financial
(the only table's `appears_financial` is false), yet no browser-automation
fallback is invoked — the strategy trace is just the HTTP request.
`fast_free_scraper.py` contains no such fallback; the verdict only lands
in table metadata. -/
theorem c7_counterexample :
    (scrape_with_requests c7Env).1 = some (⟨[], [], [], []⟩, [c7Table]) ∧
    c7Table.appears_financial = false ∧
    Method.selM ∉ (scrape_with_requests c7Env).2 := by
  refine ⟨by decide, rfl, by decide⟩

/-- C7 amended: `is_financial_table_fast`'s verdict does not gate any
browser-automation fallback in fast_free_scraper.py — a
`scrape_with_requests` run never invokes browser automation, whatever the
classification; the verdict is only recorded as each extracted table's
`appears_financial` metadata, which always equals
`is_financial_table_fast` of that table's headers and rows. -/
theorem c7_no_browser_fallback_in_fast_free (e : FFEnv) :
    Method.selM ∉ (scrape_with_requests e).2 ∧
    ∀ ex tabs, (scrape_with_requests e).1 = some (ex, tabs) →
      ∀ t ∈ tabs, t.appears_financial = is_financial_table_fast ⟨t.headers, t.rows⟩ := by
  constructor
  · cases hresp : e.resp <;> simp [scrape_with_requests, hresp]
  · intro ex tabs htabs t ht
    cases hresp : e.resp with
    | error msg => simp [scrape_with_requests, hresp] at htabs
    | ok text =>
      simp only [scrape_with_requests, hresp, Option.some.injEq, Prod.mk.injEq] at htabs
      obtain ⟨-, htabs⟩ := htabs
      subst htabs
      simp only [extract_tables_fast, List.mem_filter, List.mem_map] at ht
      obtain ⟨⟨raw, -, hform⟩, -⟩ := ht
      rw [← hform]

/-- Witness for the amended C7 at the concrete run `c7Env`. -/
theorem c7_no_browser_fallback_in_fast_free_witness :
    Method.selM ∉ (scrape_with_requests c7Env).2 ∧
    c7Table.appears_financial = is_financial_table_fast ⟨c7Table.headers, c7Table.rows⟩ :=
  ⟨(c7_no_browser_fallback_in_fast_free c7Env).1,
   (c7_no_browser_fallback_in_fast_free c7Env).2 ⟨[], [], [], []⟩ [c7Table]
     (by decide) c7Table (by decide)⟩
